import Mathlib

/-!
Verification development for the parking-lot backend's authorization-aware
cache-aside access layer (`src/modules/vehicle/vehicle.controller.ts` and
`src/modules/section/section.controller.ts`).

The two controllers are embedded shallowly: the Redis collaborator is a
key-value store with absolute expiry times, the per-request services
(`vehicleService`, `sectionService`) are external collaborators modelled by
the value they return, and `JSON.parse` / `JSON.stringify` are parameters
`parse` / `stringify` of the handlers (the claims hold for every codec).
Handler executions record the collaborator calls they make as an event
trace, so properties such as "the loader is not invoked" or "no cache
write occurs" are statements about the trace.
-/

set_option linter.unusedVariables false

namespace ParkingLot

/-! ## Decimal rendering of numbers (JS template literals)

`key = `vehicles:${page}:${limit}`` renders the integers `page` and
`limit` in decimal.  `natDec` / `intDec` model that rendering. -/

/-- Decimal digit characters of a natural number, most significant first,
as a JS template literal renders a non-negative integer (recursion
formulated for proofs; `natDec` below is the equivalent executable
form). -/
def natDecW (n : Nat) : List Char :=
  if _h : n < 10 then [Nat.digitChar n]
  else natDecW (n / 10) ++ [Nat.digitChar (n % 10)]
  termination_by n
  decreasing_by exact Nat.div_lt_self (by omega) (by omega)

/-- Fuel-driven accumulator form of the decimal rendering, reducible by
the kernel. -/
def natDecAux : Nat → Nat → List Char → List Char
  | 0, _, acc => acc
  | fuel + 1, n, acc =>
    if n < 10 then Nat.digitChar n :: acc
    else natDecAux fuel (n / 10) (Nat.digitChar (n % 10) :: acc)

/-- Decimal digit characters of a natural number, most significant
first. -/
def natDec (n : Nat) : List Char := natDecAux (n + 1) n []

/-- Decimal string of an integer, as a JS template literal renders it. -/
def intDec : Int → String
  | .ofNat n => ⟨natDec n⟩
  | .negSucc n => ⟨'-' :: natDec (n + 1)⟩

/-- The ten decimal digit characters. -/
def decDigits : List Char := ['0', '1', '2', '3', '4', '5', '6', '7', '8', '9']

/-- Decoding of a digit list back to a number, used to invert `natDec`. -/
def ofDec (cs : List Char) : Nat :=
  cs.foldl (fun a c => 10 * a + (c.toNat - 48)) 0

theorem digitChar_mem_decDigits (m : Nat) (h : m < 10) :
    Nat.digitChar m ∈ decDigits := by
  interval_cases m <;> decide

theorem digitChar_toNat (m : Nat) (h : m < 10) :
    (Nat.digitChar m).toNat = m + 48 := by
  interval_cases m <;> decide

theorem natDecAux_eq_natDecW :
    ∀ fuel n acc, 0 < fuel → n < 10 ^ fuel →
      natDecAux fuel n acc = natDecW n ++ acc := by
  intro fuel
  induction fuel with
  | zero => intro n acc h; omega
  | succ fuel ih =>
    intro n acc _ hlt
    rw [natDecAux, natDecW]
    by_cases h10 : n < 10
    · rw [if_pos h10, dif_pos h10]
      rfl
    · rw [if_neg h10, dif_neg h10]
      have hfuel : 0 < fuel := by
        by_contra hf
        have : fuel = 0 := by omega
        subst this
        simp at hlt
        omega
      have hdiv : n / 10 < 10 ^ fuel := by
        have := (Nat.div_lt_iff_lt_mul (by omega : 0 < 10)).mpr
          (by rw [← pow_succ]; exact hlt)
        exact this
      rw [ih (n / 10) (Nat.digitChar (n % 10) :: acc) hfuel hdiv]
      simp

theorem natDec_eq_natDecW (n : Nat) : natDec n = natDecW n := by
  have hpow : n < 10 ^ (n + 1) := by
    calc n < 10 ^ n := Nat.lt_pow_self (by omega) n
    _ ≤ 10 ^ (n + 1) := Nat.pow_le_pow_right (by omega) (Nat.le_succ n)
  rw [natDec, natDecAux_eq_natDecW (n + 1) n [] (Nat.succ_pos n) hpow,
    List.append_nil]

theorem natDec_mem (n : Nat) : ∀ c ∈ natDec n, c ∈ decDigits := by
  rw [natDec_eq_natDecW]
  induction n using Nat.strong_induction_on with
  | _ n ih =>
    rw [natDecW]
    split
    · intro c hc
      rw [List.mem_singleton] at hc
      subst hc
      exact digitChar_mem_decDigits n (by omega)
    · intro c hc
      rcases List.mem_append.mp hc with h1 | h2
      · exact ih (n / 10) (Nat.div_lt_self (by omega) (by omega)) c h1
      · rw [List.mem_singleton] at h2
        subst h2
        exact digitChar_mem_decDigits (n % 10) (Nat.mod_lt n (by omega))

theorem natDec_ne_nil (n : Nat) : natDec n ≠ [] := by
  rw [natDec_eq_natDecW, natDecW]
  split <;> simp

theorem ofDec_append_one (cs : List Char) (c : Char) :
    ofDec (cs ++ [c]) = 10 * ofDec cs + (c.toNat - 48) := by
  simp [ofDec, List.foldl_append]

theorem ofDec_natDec (n : Nat) : ofDec (natDec n) = n := by
  rw [natDec_eq_natDecW]
  induction n using Nat.strong_induction_on with
  | _ n ih =>
    rw [natDecW]
    split
    · rename_i h
      simp [ofDec, digitChar_toNat n h]
    · rename_i h
      rw [ofDec_append_one, ih (n / 10) (Nat.div_lt_self (by omega) (by omega)),
        digitChar_toNat (n % 10) (Nat.mod_lt n (by omega))]
      omega

theorem natDec_inj {a b : Nat} (h : natDec a = natDec b) : a = b := by
  have := ofDec_natDec a
  rw [h, ofDec_natDec] at this
  omega

theorem dash_not_mem_natDec (n : Nat) : '-' ∉ natDec n := by
  intro h
  have := natDec_mem n '-' h
  simp [decDigits] at this

theorem colon_not_mem_natDec (n : Nat) : ':' ∉ natDec n := by
  intro h
  have := natDec_mem n ':' h
  simp [decDigits] at this

theorem intDec_inj {a b : Int} (h : intDec a = intDec b) : a = b := by
  rw [String.ext_iff] at h
  cases a with
  | ofNat m =>
    cases b with
    | ofNat n =>
      simp only [intDec] at h
      exact congrArg Int.ofNat (natDec_inj h)
    | negSucc n =>
      simp only [intDec] at h
      exact absurd (h ▸ List.mem_cons_self '-' (natDec (n + 1)))
        (dash_not_mem_natDec m)
  | negSucc m =>
    cases b with
    | ofNat n =>
      simp only [intDec] at h
      exact absurd (h.symm ▸ List.mem_cons_self '-' (natDec (m + 1)))
        (dash_not_mem_natDec n)
    | negSucc n =>
      simp only [intDec, List.cons.injEq, true_and] at h
      have hmn : m = n := by have := natDec_inj h; omega
      rw [hmn]

theorem colon_not_mem_intDec (v : Int) : ':' ∉ (intDec v).data := by
  cases v with
  | ofNat n => exact colon_not_mem_natDec n
  | negSucc n =>
    intro h
    rcases List.mem_cons.mp h with h1 | h2
    · exact absurd h1 (by decide)
    · exact colon_not_mem_natDec (n + 1) h2

/-- Splitting a list at a separator occurring in neither left part is
unambiguous. -/
theorem append_sep_inj {sep : Char} :
    ∀ l₁ l₂ r₁ r₂ : List Char, sep ∉ l₁ → sep ∉ l₂ →
      l₁ ++ sep :: r₁ = l₂ ++ sep :: r₂ → l₁ = l₂ ∧ r₁ = r₂ := by
  intro l₁
  induction l₁ with
  | nil =>
    intro l₂ r₁ r₂ _ h₂ he
    cases l₂ with
    | nil => simpa using he
    | cons x xs =>
      simp only [List.nil_append, List.cons_append, List.cons.injEq] at he
      exact absurd (he.1 ▸ List.mem_cons_self x xs) h₂
  | cons x xs ih =>
    intro l₂ r₁ r₂ h₁ h₂ he
    cases l₂ with
    | nil =>
      simp only [List.cons_append, List.nil_append, List.cons.injEq] at he
      exact absurd (he.1.symm ▸ List.mem_cons_self x xs) h₁
    | cons y ys =>
      simp only [List.cons_append, List.cons.injEq] at he
      obtain ⟨hxy, htail⟩ := he
      have hrec := ih ys r₁ r₂ (fun hm => h₁ (List.mem_cons_of_mem x hm))
        (fun hm => h₂ (List.mem_cons_of_mem y hm)) htail
      exact ⟨by rw [hxy, hrec.1], hrec.2⟩

/-! ## Cache keys

The key expressions built by the four GET handlers. -/

/-- Key of `VehicleController.getAll`: `` `vehicles:${page}:${limit}` ``.
The `plate` query parameter is not part of the key. -/
def vehicleListKey (page limit : Int) : String :=
  "vehicles:" ++ intDec page ++ ":" ++ intDec limit

/-- Key of `VehicleController.getById`: `` `vehicles:${id}` ``. -/
def vehicleIdKey (id : Int) : String :=
  "vehicles:" ++ intDec id

/-- Key of `SectionController.getAll`: the constant `` `sections` ``. -/
def sectionsKey : String := "sections"

/-- Key of `SectionController.getById`: `` `sections:${id}` ``. -/
def sectionIdKey (id : Int) : String :=
  "sections:" ++ intDec id

/-! ## The Redis collaborator

`@InjectRedis() private readonly redis: Redis` is an external key-value
collaborator.  Per the spec's cache-collaborator interface it offers
`get(key) -> bytes|absent` and `set(key, bytes, "EX", ttlSeconds)`; an
entry set at time `now` with time-to-live `ttl` is visible until
`now + ttl`.  Both operations are fallible; availability of each is an
explicit input of a handler run. -/

/-- One live Redis string entry: key, stored value, absolute expiry
instant (seconds). -/
structure CacheEntry where
  key : String
  value : String
  expireAt : Nat
deriving Repr, DecidableEq

/-- State of the Redis key-value collaborator. -/
structure RedisState where
  entries : List CacheEntry
deriving Repr, DecidableEq

/-- `redis.get(k)` at time `now`: the value of a live entry for `k`, or
absent (`null`) when no entry for `k` is live. -/
def RedisState.read (r : RedisState) (now : Nat) (k : String) : Option String :=
  match r.entries.find? (fun e => k == e.key && Nat.blt now e.expireAt) with
  | some e => some e.value
  | none => none

/-- `redis.set(k, v, "EX", ttl)` at time `now`: replaces any entry for `k`
by one expiring at `now + ttl`. -/
def RedisState.setEx (r : RedisState) (now : Nat) (k v : String) (ttl : Nat) : RedisState :=
  ⟨⟨k, v, now + ttl⟩ :: r.entries.filter (fun e => !(k == e.key))⟩

/-! ## Handler runs -/

/-- An exception escaping a handler (surfaced by the framework as a
request failure): a rejected Redis command, or `JSON.parse` throwing. -/
inductive JsError
  | cacheDown
  | parseFailed
deriving Repr, DecidableEq

/-- A collaborator call made during a handler run.  `serviceCall` is a
call into the per-resource service (the loader, which queries the store);
`redisGet` / `redisSet` are the cache collaborator calls, recorded also
when the command fails. -/
inductive Event
  | redisGet (key : String)
  | redisSet (key value : String) (ttl : Nat)
  | serviceCall
deriving Repr, DecidableEq

/-- Result of one handler run: the outcome returned to the framework
(value or escaped exception), the trace of collaborator calls, and the
Redis state afterwards. -/
structure HandlerRun (V : Type) where
  outcome : Except JsError V
  events : List Event
  redis : RedisState

/-- The JS guard `cacheOption && cacheOption !== "no-cache"`: the header
must be present, truthy (non-empty), and differ from `"no-cache"`. -/
def wantsCache : Option String → Bool
  | none => false
  | some s => !(s == "") && !(s == "no-cache")

/-- Tail of every GET handler: call the service, `JSON.stringify` the
result, `await redis.set(key, payload, "EX", 60 * 10)`, return the
result.  When the set command is rejected the exception escapes (the
handlers have no catch), although the service was already consulted. -/
def loadAndStore {V : Type} (stringify : V → String) (key : String)
    (now : Nat) (redis : RedisState) (setUp : Bool) (svc : V)
    (evs : List Event) : HandlerRun V :=
  let payload := stringify svc
  if setUp then
    ⟨.ok svc, evs ++ [.serviceCall, .redisSet key payload (60 * 10)],
      redis.setEx now key payload (60 * 10)⟩
  else
    ⟨.error .cacheDown, evs ++ [.serviceCall, .redisSet key payload (60 * 10)],
      redis⟩

/-- The read block shared verbatim by the four GET handlers
(`VehicleController.getAll` / `getById`, `SectionController.getAll` /
`getById`):

```
if (cacheOption && cacheOption !== "no-cache") {
  const cached = await this.redis.get(key);
  if (cached) { return JSON.parse(cached); }
}
const data = await this.service...;
await this.redis.set(key, JSON.stringify(data), "EX", 60 * 10);
return data;
```

`getUp` / `setUp` say whether the respective Redis command succeeds; a
rejected command makes the `await` throw, and the exception escapes.
`JSON.parse` of a cached value that `parse` cannot decode also throws. -/
def cachedRead {V : Type} (parse : String → Option V) (stringify : V → String)
    (key : String) (cacheOption : Option String) (now : Nat)
    (redis : RedisState) (getUp setUp : Bool) (svc : V) : HandlerRun V :=
  if wantsCache cacheOption then
    if getUp then
      match redis.read now key with
      | some cached =>
        if cached == "" then
          loadAndStore stringify key now redis setUp svc [.redisGet key]
        else
          match parse cached with
          | some v => ⟨.ok v, [.redisGet key], redis⟩
          | none => ⟨.error .parseFailed, [.redisGet key], redis⟩
      | none => loadAndStore stringify key now redis setUp svc [.redisGet key]
    else ⟨.error .cacheDown, [.redisGet key], redis⟩
  else loadAndStore stringify key now redis setUp svc []

/-! ## The GET endpoints

Each handler takes the request inputs the TypeScript method takes; the
authenticated user and the query parameters that only flow into the
service call (`user`, `plate`) do not influence the cache logic, and the
service's reply is the input `svc`. -/

/-- `VehicleController.getAll(cacheOption, user, plate, page, limit)`.
The plate filter is passed to `vehicleService.getAll` but is absent from
the cache key. -/
def vehicleGetAll {V : Type} (parse : String → Option V) (stringify : V → String)
    (cacheOption : Option String) (plate : Option String) (page limit : Int)
    (now : Nat) (redis : RedisState) (getUp setUp : Bool) (svc : V) :
    HandlerRun V :=
  cachedRead parse stringify (vehicleListKey page limit) cacheOption now redis
    getUp setUp svc

/-- `VehicleController.getById(cacheOption, user, id)`. -/
def vehicleGetById {V : Type} (parse : String → Option V) (stringify : V → String)
    (cacheOption : Option String) (id : Int) (now : Nat) (redis : RedisState)
    (getUp setUp : Bool) (svc : V) : HandlerRun V :=
  cachedRead parse stringify (vehicleIdKey id) cacheOption now redis
    getUp setUp svc

/-- `SectionController.getAll(cacheOption, user)`. -/
def sectionGetAll {V : Type} (parse : String → Option V) (stringify : V → String)
    (cacheOption : Option String) (now : Nat) (redis : RedisState)
    (getUp setUp : Bool) (svc : V) : HandlerRun V :=
  cachedRead parse stringify sectionsKey cacheOption now redis getUp setUp svc

/-- `SectionController.getById(cacheOption, user, id)`. -/
def sectionGetById {V : Type} (parse : String → Option V) (stringify : V → String)
    (cacheOption : Option String) (id : Int) (now : Nat) (redis : RedisState)
    (getUp setUp : Bool) (svc : V) : HandlerRun V :=
  cachedRead parse stringify (sectionIdKey id) cacheOption now redis
    getUp setUp svc

/-! ## The mutation endpoints

`VehicleController.update` / `delete` and `SectionController.update` /
`delete` each delegate to the service and never touch the Redis
collaborator. -/

/-- `VehicleController.update(id, plate)`: `vehicleService.update(id, plate)`
only. -/
def vehicleUpdate {V : Type} (id : Int) (plate : String) (redis : RedisState)
    (svc : V) : HandlerRun V :=
  ⟨.ok svc, [.serviceCall], redis⟩

/-- `VehicleController.delete(id)`: `vehicleService.delete(id)` only. -/
def vehicleDelete {V : Type} (id : Int) (redis : RedisState) (svc : V) :
    HandlerRun V :=
  ⟨.ok svc, [.serviceCall], redis⟩

/-- `SectionController.update(user, id, body)`:
`sectionService.update(user, id, body)` only. -/
def sectionUpdate {V : Type} (id : Int) (redis : RedisState) (svc : V) :
    HandlerRun V :=
  ⟨.ok svc, [.serviceCall], redis⟩

/-- `SectionController.delete(id)`: `sectionService.delete(id)` only. -/
def sectionDelete {V : Type} (id : Int) (redis : RedisState) (svc : V) :
    HandlerRun V :=
  ⟨.ok svc, [.serviceCall], redis⟩

/-! ## Role policy

The `@Roles(...)` lists below are transcribed from the decorators on each
controller method. -/

/-- Caller roles named by the spec's data model. -/
inductive Role
  | ADMIN
  | SECURITY
  | RESIDENT
deriving Repr, DecidableEq

/-- The endpoints of `VehicleController`. -/
inductive VehicleEndpoint
  | getAll
  | getById
  | create
  | update
  | delete
deriving Repr, DecidableEq

/-- The endpoints of `SectionController`. -/
inductive SectionEndpoint
  | getAll
  | getById
  | getReservedSlots
  | create
  | update
  | delete
  | report
deriving Repr, DecidableEq

/-- The `@Roles(...)` decorator of each `VehicleController` method. -/
def vehicleRoles : VehicleEndpoint → List Role
  | .getAll => [.ADMIN, .SECURITY]
  | .getById => [.ADMIN, .SECURITY]
  | .create => [.ADMIN, .SECURITY]
  | .update => [.ADMIN]
  | .delete => [.ADMIN]

/-- The `@Roles(...)` decorator of each `SectionController` method. -/
def sectionRoles : SectionEndpoint → List Role
  | .getAll => [.ADMIN, .SECURITY]
  | .getById => [.ADMIN, .SECURITY]
  | .getReservedSlots => [.ADMIN, .SECURITY]
  | .create => [.ADMIN]
  | .update => [.ADMIN]
  | .delete => [.ADMIN]
  | .report => [.ADMIN, .SECURITY]

/-- Modelled from the spec: the `RolesGuard` implementation
(`src/guards/role.guard.ts`) is not among the provided sources; per the
spec's Role Policy gate, a handler decorated with `@Roles(...)` admits a
caller exactly when the caller's role is in the decorated list. -/
def vehicleAllows (r : Role) (e : VehicleEndpoint) : Bool :=
  (vehicleRoles e).contains r

/-- Modelled from the spec: same guard semantics as `vehicleAllows`, for
`SectionController`. -/
def sectionAllows (r : Role) (e : SectionEndpoint) : Bool :=
  (sectionRoles e).contains r

/-! ## A concrete codec

For evaluating the handlers at concrete inputs (witnesses and
counterexamples) the payload type is instantiated with `Nat` and the
JSON codec with the decimal rendering: any codec would do, the handler
theorems are codec-generic. -/

/-- A concrete `JSON.stringify` stand-in on `Nat` payloads: the decimal
rendering. -/
def natStringify (n : Nat) : String := ⟨natDec n⟩

/-- A concrete `JSON.parse` stand-in on `Nat` payloads: accepts exactly
the non-empty all-digit strings, anything else fails to decode. -/
def natParse (s : String) : Option Nat :=
  if !s.data.isEmpty && s.data.all (fun c => decDigits.contains c) then
    some (ofDec s.data)
  else none

theorem natParse_natStringify (n : Nat) : natParse (natStringify n) = some n := by
  have h1 : (natDec n).isEmpty = false := by
    cases hnil : natDec n with
    | nil => exact absurd hnil (natDec_ne_nil n)
    | cons a l => rfl
  have h2 : ((natDec n).all fun c => decDigits.contains c) = true := by
    rw [List.all_eq_true]
    intro c hc
    simpa using natDec_mem n c hc
  simp [natParse, natStringify, h1, h2, ofDec_natDec]
  intro x hx
  exact natDec_mem n x hx

theorem natStringify_ne_empty (n : Nat) : natStringify n ≠ "" := by
  intro h
  exact natDec_ne_nil n (by simpa [natStringify, String.ext_iff] using h)

/-! ## General facts about the shared read block -/

theorem wantsCache_none : wantsCache none = false := rfl

theorem wantsCache_no_cache : wantsCache (some "no-cache") = false := by
  simp [wantsCache]

theorem wantsCache_some_iff (s : String) :
    wantsCache (some s) = true ↔ s ≠ "" ∧ s ≠ "no-cache" := by
  simp [wantsCache]

/-- When the guard rejects (header absent, empty, or `no-cache`) the block
goes straight to the service-then-set tail. -/
theorem cachedRead_of_not_wantsCache {V : Type} (parse : String → Option V)
    (stringify : V → String) (key : String) (cacheOption : Option String)
    (now : Nat) (redis : RedisState) (getUp setUp : Bool) (svc : V)
    (h : wantsCache cacheOption = false) :
    cachedRead parse stringify key cacheOption now redis getUp setUp svc =
      loadAndStore stringify key now redis setUp svc [] := by
  rw [cachedRead, h]
  simp

/-- A rejected `redis.get` command escapes before the service is called. -/
theorem cachedRead_get_down {V : Type} (parse : String → Option V)
    (stringify : V → String) (key : String) (cacheOption : Option String)
    (now : Nat) (redis : RedisState) (setUp : Bool) (svc : V)
    (h : wantsCache cacheOption = true) :
    cachedRead parse stringify key cacheOption now redis false setUp svc =
      ⟨.error .cacheDown, [.redisGet key], redis⟩ := by
  rw [cachedRead, h]
  simp

/-- A cache hit that decodes returns the decoded value at once. -/
theorem cachedRead_hit {V : Type} (parse : String → Option V)
    (stringify : V → String) (key : String) (cacheOption : Option String)
    (now : Nat) (redis : RedisState) (setUp : Bool) (svc : V)
    (c : String) (v : V) (h : wantsCache cacheOption = true)
    (hc : redis.read now key = some c) (hne : c ≠ "")
    (hp : parse c = some v) :
    cachedRead parse stringify key cacheOption now redis true setUp svc =
      ⟨.ok v, [.redisGet key], redis⟩ := by
  rw [cachedRead, h]
  simp only [if_true, hc]
  rw [if_neg (by simpa using hne), hp]

/-- A cache hit that fails to decode throws, before the service is
called and without touching the cache. -/
theorem cachedRead_hit_bad_payload {V : Type} (parse : String → Option V)
    (stringify : V → String) (key : String) (cacheOption : Option String)
    (now : Nat) (redis : RedisState) (setUp : Bool) (svc : V)
    (c : String) (h : wantsCache cacheOption = true)
    (hc : redis.read now key = some c) (hne : c ≠ "")
    (hp : parse c = none) :
    cachedRead parse stringify key cacheOption now redis true setUp svc =
      ⟨.error .parseFailed, [.redisGet key], redis⟩ := by
  rw [cachedRead, h]
  simp only [if_true, hc]
  rw [if_neg (by simpa using hne), hp]

/-- A cache miss goes to the service-then-set tail after the get. -/
theorem cachedRead_miss {V : Type} (parse : String → Option V)
    (stringify : V → String) (key : String) (cacheOption : Option String)
    (now : Nat) (redis : RedisState) (setUp : Bool) (svc : V)
    (h : wantsCache cacheOption = true)
    (hc : redis.read now key = none) :
    cachedRead parse stringify key cacheOption now redis true setUp svc =
      loadAndStore stringify key now redis setUp svc [.redisGet key] := by
  rw [cachedRead, h]
  simp only [if_true, hc]

/-- Reading back a key just set, before its expiry instant, yields the
value just stored. -/
theorem setEx_read_back (r : RedisState) (now t : Nat) (k v : String)
    (ttl : Nat) (ht : t < now + ttl) :
    (r.setEx now k v ttl).read t k = some v := by
  have hb : Nat.blt t (now + ttl) = true := by simpa [Nat.blt_eq] using ht
  simp [RedisState.read, RedisState.setEx, List.find?, hb]

/-- Every set command issued by the shared read block carries the fixed
time-to-live `60 * 10`. -/
theorem cachedRead_ttl {V : Type} (parse : String → Option V)
    (stringify : V → String) (key : String) (cacheOption : Option String)
    (now : Nat) (redis : RedisState) (getUp setUp : Bool) (svc : V) :
    ∀ k v t, Event.redisSet k v t ∈
        (cachedRead parse stringify key cacheOption now redis getUp setUp
          svc).events →
      t = 60 * 10 := by
  intro k v t hmem
  rw [cachedRead] at hmem
  split at hmem
  · split at hmem
    · split at hmem
      · rename_i c' _
        split at hmem
        · simp only [loadAndStore] at hmem
          split at hmem <;> simp_all
        · split at hmem <;> simp_all
      · simp only [loadAndStore] at hmem
        split at hmem <;> simp_all
    · simp_all
  · simp only [loadAndStore] at hmem
    split at hmem <;> simp_all

/-- The list-key derivation drops nothing of page and limit: equal keys
force equal page and limit. -/
theorem vehicleListKey_inj_aux (p₁ l₁ p₂ l₂ : Int)
    (h : vehicleListKey p₁ l₁ = vehicleListKey p₂ l₂) : p₁ = p₂ ∧ l₁ = l₂ := by
  have hd := congrArg String.data h
  simp only [vehicleListKey, String.data_append] at hd
  rw [List.append_assoc, List.append_assoc, List.append_assoc,
    List.append_assoc] at hd
  have hd₂ := List.append_cancel_left hd
  rw [List.singleton_append] at hd₂
  have hsplit := append_sep_inj (intDec p₁).data (intDec p₂).data
    (intDec l₁).data (intDec l₂).data (colon_not_mem_intDec p₁)
    (colon_not_mem_intDec p₂) hd₂
  exact ⟨intDec_inj (String.ext hsplit.1), intDec_inj (String.ext hsplit.2)⟩

/-- No service call occurs before the tail of the read block reaches the
service; membership below describes the tail's trace. -/
theorem loadAndStore_events {V : Type} (stringify : V → String) (key : String)
    (now : Nat) (redis : RedisState) (setUp : Bool) (svc : V)
    (evs : List Event) :
    (loadAndStore stringify key now redis setUp svc evs).events =
      evs ++ [.serviceCall, .redisSet key (stringify svc) (60 * 10)] := by
  rw [loadAndStore]
  split <;> rfl

theorem redisGet_not_mem_loadAndStore {V : Type} (stringify : V → String)
    (key : String) (now : Nat) (redis : RedisState) (setUp : Bool) (svc : V)
    (k : String) :
    Event.redisGet k ∉ (loadAndStore stringify key now redis setUp svc []).events := by
  rw [loadAndStore_events]
  simp

/-! ## The claims -/

/-- C1 counterexample: a GET request without any cache-bypass directive
(the Cache-Control header is simply absent) never attempts a cache get,
and a second identical request invokes the loader again: from an empty
cache, the first `vehicles?page=1&limit=10` call goes straight to the
service, and so does the second, instead of "at most one" loader call. -/
theorem c1_counterexample :
    (vehicleGetAll natParse natStringify none none 1 10 0 ⟨[]⟩
        true true 42).events =
      [.serviceCall, .redisSet "vehicles:1:10" (natStringify 42) (60 * 10)] ∧
    Event.serviceCall ∈
      (vehicleGetAll natParse natStringify none none 1 10 1
        (vehicleGetAll natParse natStringify none none 1 10 0 ⟨[]⟩
          true true 42).redis true true 42).events := by
  exact ⟨by decide, by decide⟩

/-- C1 (amended): for every GET request whose Cache-Control header is
present, non-empty and different from `no-cache`, the handler first
attempts a cache get; calling the same endpoint twice this way with the
same key invokes the loader at most once within the TTL window — the
first call misses, queries the service and stores the serialized result,
and the second call returns the cached payload with no service query. -/
theorem c1_second_call_cached {V : Type} (parse : String → Option V)
    (stringify : V → String) (s : String) (plate plate' : Option String)
    (page limit : Int) (t₀ t₁ : Nat) (redis₀ : RedisState) (v v' : V)
    (hs₁ : s ≠ "") (hs₂ : s ≠ "no-cache")
    (hmiss : redis₀.read t₀ (vehicleListKey page limit) = none)
    (ht : t₁ < t₀ + 60 * 10)
    (hrt : parse (stringify v) = some v) (hne : stringify v ≠ "") :
    vehicleGetAll parse stringify (some s) plate page limit t₀ redis₀
        true true v =
      ⟨.ok v,
        [.redisGet (vehicleListKey page limit), .serviceCall,
          .redisSet (vehicleListKey page limit) (stringify v) (60 * 10)],
        redis₀.setEx t₀ (vehicleListKey page limit) (stringify v) (60 * 10)⟩ ∧
    vehicleGetAll parse stringify (some s) plate' page limit t₁
        (redis₀.setEx t₀ (vehicleListKey page limit) (stringify v) (60 * 10))
        true true v' =
      ⟨.ok v, [.redisGet (vehicleListKey page limit)],
        redis₀.setEx t₀ (vehicleListKey page limit) (stringify v) (60 * 10)⟩ := by
  have hw : wantsCache (some s) = true := (wantsCache_some_iff s).mpr ⟨hs₁, hs₂⟩
  constructor
  · rw [vehicleGetAll, cachedRead_miss parse stringify _ _ _ _ _ _ hw hmiss,
      loadAndStore]
    rfl
  · rw [vehicleGetAll,
      cachedRead_hit parse stringify _ _ _ _ _ _ (stringify v) v hw
        (setEx_read_back redis₀ t₀ t₁ _ _ _ ht) hne hrt]

/-- C1 witness data: concrete instantiation of `c1_second_call_cached`
at `page=1`, `limit=10`, header `max-age=0`, payload `42`. -/
theorem c1_witness :
    (("max-age=0" : String) ≠ "") ∧
    (RedisState.read ⟨[]⟩ 0 (vehicleListKey 1 10) = none) ∧
    (natParse (natStringify 42) = some 42) ∧
    vehicleGetAll natParse natStringify (some "max-age=0") none 1 10 5
        (RedisState.setEx ⟨[]⟩ 0 (vehicleListKey 1 10) (natStringify 42)
          (60 * 10)) true true 43 =
      ⟨.ok 42, [.redisGet (vehicleListKey 1 10)],
        RedisState.setEx ⟨[]⟩ 0 (vehicleListKey 1 10) (natStringify 42)
          (60 * 10)⟩ :=
  ⟨by decide, by decide, by decide,
    (c1_second_call_cached natParse natStringify "max-age=0" none none 1 10
      0 5 ⟨[]⟩ 42 43 (by decide) (by decide) (by decide) (by decide)
      (by decide) (by decide)).2⟩

/-- C2 counterexample: the derived cache key is not injective in the
plate filter — two vehicle-list requests identical except for the plate
selector produce the very same handler run, in particular the same cache
key `vehicles:1:10` in their cache-write event. -/
theorem c2_counterexample :
    vehicleGetAll natParse natStringify (some "max-age=0") (some "AAA111")
        1 10 0 ⟨[]⟩ true true 42 =
      vehicleGetAll natParse natStringify (some "max-age=0") (some "ZZZ999")
        1 10 0 ⟨[]⟩ true true 42 ∧
    Event.redisSet "vehicles:1:10" (natStringify 42) 600 ∈
      (vehicleGetAll natParse natStringify (some "max-age=0") (some "AAA111")
        1 10 0 ⟨[]⟩ true true 42).events ∧
    Event.redisSet "vehicles:1:10" (natStringify 42) 600 ∈
      (vehicleGetAll natParse natStringify (some "max-age=0") (some "ZZZ999")
        1 10 0 ⟨[]⟩ true true 42).events := ⟨rfl, by decide, by decide⟩

/-- C2 (amended): the vehicle-list cache key is deterministic and
injective with respect to page and limit — two requests derive the same
key exactly when their page and limit coincide; the plate filter is not
encoded in the key, so selectors differing only in plate collide. -/
theorem c2_key_injective_in_page_limit (p₁ l₁ p₂ l₂ : Int) :
    vehicleListKey p₁ l₁ = vehicleListKey p₂ l₂ ↔ p₁ = p₂ ∧ l₁ = l₂ := by
  constructor
  · exact vehicleListKey_inj_aux p₁ l₁ p₂ l₂
  · rintro ⟨rfl, rfl⟩
    rfl

/-- C3 counterexample: a failing cache get does not degrade to the
loader — the exception propagates, the request fails, and the service is
never queried. -/
theorem c3_counterexample :
    (vehicleGetAll natParse natStringify (some "max-age=0") none 1 10 0 ⟨[]⟩
        false true 42).outcome = .error .cacheDown ∧
    Event.serviceCall ∉
      (vehicleGetAll natParse natStringify (some "max-age=0") none 1 10 0 ⟨[]⟩
        false true 42).events := ⟨rfl, by decide⟩

/-- C3 (amended): a cache transport failure fails the request instead of
degrading.  A rejected get command escapes before the loader runs (cached
read of the vehicle list); a rejected set command escapes even though the
loader has already produced the fresh result (section-by-id miss). -/
theorem c3_cache_failure_propagates {V : Type} (parse : String → Option V)
    (stringify : V → String) (s : String) (plate : Option String)
    (page limit id : Int) (now : Nat) (redis : RedisState) (setUp : Bool)
    (svc : V) (hs₁ : s ≠ "") (hs₂ : s ≠ "no-cache")
    (hmiss : redis.read now (sectionIdKey id) = none) :
    vehicleGetAll parse stringify (some s) plate page limit now redis
        false setUp svc =
      ⟨.error .cacheDown, [.redisGet (vehicleListKey page limit)], redis⟩ ∧
    sectionGetById parse stringify (some s) id now redis true false svc =
      ⟨.error .cacheDown,
        [.redisGet (sectionIdKey id), .serviceCall,
          .redisSet (sectionIdKey id) (stringify svc) (60 * 10)], redis⟩ := by
  have hw : wantsCache (some s) = true := (wantsCache_some_iff s).mpr ⟨hs₁, hs₂⟩
  constructor
  · rw [vehicleGetAll, cachedRead_get_down parse stringify _ _ _ _ _ _ hw]
  · rw [sectionGetById, cachedRead_miss parse stringify _ _ _ _ _ _ hw hmiss,
      loadAndStore]
    rfl

/-- C3 witness data: concrete instantiation of
`c3_cache_failure_propagates` with an empty cache and payload `42`. -/
theorem c3_witness :
    (("max-age=0" : String) ≠ "no-cache") ∧
    (RedisState.read ⟨[]⟩ 0 (sectionIdKey 3) = none) ∧
    sectionGetById natParse natStringify (some "max-age=0") 3 0 ⟨[]⟩
        true false 42 =
      ⟨.error .cacheDown,
        [.redisGet (sectionIdKey 3), .serviceCall,
          .redisSet (sectionIdKey 3) (natStringify 42) (60 * 10)], ⟨[]⟩⟩ :=
  ⟨by decide, by decide,
    (c3_cache_failure_propagates natParse natStringify "max-age=0" none 1 10
      3 0 ⟨[]⟩ false 42 (by decide) (by decide) (by decide)).2⟩

/-- C4 (confirmed): a request with `Cache-Control: no-cache` skips the
cache read (its trace has no get event), always invokes the loader, and
always writes the fresh serialized result back with the fixed TTL — both
for the vehicle list and for the section list — and a subsequent request
carrying any other non-empty Cache-Control value for the same key within
the TTL window is served from the cache without a loader call. -/
theorem c4_bypass_reloads_and_repopulates {V : Type} (parse : String → Option V)
    (stringify : V → String) (s : String) (plate plate' : Option String)
    (page limit : Int) (t₀ t₁ : Nat) (redis : RedisState) (v v' : V)
    (hs₁ : s ≠ "") (hs₂ : s ≠ "no-cache") (ht : t₁ < t₀ + 60 * 10)
    (hrt : parse (stringify v) = some v) (hne : stringify v ≠ "") :
    vehicleGetAll parse stringify (some "no-cache") plate page limit t₀ redis
        true true v =
      ⟨.ok v,
        [.serviceCall,
          .redisSet (vehicleListKey page limit) (stringify v) (60 * 10)],
        redis.setEx t₀ (vehicleListKey page limit) (stringify v) (60 * 10)⟩ ∧
    sectionGetAll parse stringify (some "no-cache") t₀ redis true true v =
      ⟨.ok v, [.serviceCall, .redisSet sectionsKey (stringify v) (60 * 10)],
        redis.setEx t₀ sectionsKey (stringify v) (60 * 10)⟩ ∧
    vehicleGetAll parse stringify (some s) plate' page limit t₁
        (redis.setEx t₀ (vehicleListKey page limit) (stringify v) (60 * 10))
        true true v' =
      ⟨.ok v, [.redisGet (vehicleListKey page limit)],
        redis.setEx t₀ (vehicleListKey page limit) (stringify v) (60 * 10)⟩ := by
  have hw : wantsCache (some s) = true := (wantsCache_some_iff s).mpr ⟨hs₁, hs₂⟩
  refine ⟨?_, ?_, ?_⟩
  · rw [vehicleGetAll,
      cachedRead_of_not_wantsCache parse stringify _ _ _ _ _ _ _
        wantsCache_no_cache, loadAndStore]
    rfl
  · rw [sectionGetAll,
      cachedRead_of_not_wantsCache parse stringify _ _ _ _ _ _ _
        wantsCache_no_cache, loadAndStore]
    rfl
  · rw [vehicleGetAll,
      cachedRead_hit parse stringify _ _ _ _ _ _ (stringify v) v hw
        (setEx_read_back redis t₀ t₁ _ _ _ ht) hne hrt]

/-- C4 witness data: concrete instantiation of
`c4_bypass_reloads_and_repopulates` with payload `42` and follow-up
header `max-age=0`. -/
theorem c4_witness :
    (5 < 0 + 60 * 10) ∧
    (natParse (natStringify 42) = some 42) ∧
    vehicleGetAll natParse natStringify (some "no-cache") none 1 10 0 ⟨[]⟩
        true true 42 =
      ⟨.ok 42,
        [.serviceCall,
          .redisSet (vehicleListKey 1 10) (natStringify 42) (60 * 10)],
        RedisState.setEx ⟨[]⟩ 0 (vehicleListKey 1 10) (natStringify 42)
          (60 * 10)⟩ :=
  ⟨by decide, by decide,
    (c4_bypass_reloads_and_repopulates natParse natStringify "max-age=0" none
      none 1 10 0 5 ⟨[]⟩ 42 43 (by decide) (by decide) (by decide)
      (by decide) (by decide)).1⟩

/-- C5 (confirmed): on a cache hit the handler returns exactly the
deserialization of the cached bytes at once — the trace is the single get
event (no loader call, no cache write) and the Redis state is untouched,
so there is no revalidation and no TTL refresh; shown for the vehicle
list and for section-by-id. -/
theorem c5_hit_serves_cache_only {V : Type} (parse : String → Option V)
    (stringify : V → String) (cacheOption : Option String)
    (plate : Option String) (page limit id : Int) (now : Nat)
    (redis : RedisState) (setUp : Bool) (svc : V) (c₁ c₂ : String) (v₁ v₂ : V)
    (hw : wantsCache cacheOption = true)
    (hc₁ : redis.read now (vehicleListKey page limit) = some c₁)
    (hne₁ : c₁ ≠ "") (hp₁ : parse c₁ = some v₁)
    (hc₂ : redis.read now (sectionIdKey id) = some c₂)
    (hne₂ : c₂ ≠ "") (hp₂ : parse c₂ = some v₂) :
    vehicleGetAll parse stringify cacheOption plate page limit now redis
        true setUp svc =
      ⟨.ok v₁, [.redisGet (vehicleListKey page limit)], redis⟩ ∧
    sectionGetById parse stringify cacheOption id now redis true setUp svc =
      ⟨.ok v₂, [.redisGet (sectionIdKey id)], redis⟩ := by
  constructor
  · rw [vehicleGetAll,
      cachedRead_hit parse stringify _ _ _ _ _ _ c₁ v₁ hw hc₁ hne₁ hp₁]
  · rw [sectionGetById,
      cachedRead_hit parse stringify _ _ _ _ _ _ c₂ v₂ hw hc₂ hne₂ hp₂]

/-- C5 witness data: concrete instantiation of `c5_hit_serves_cache_only`
on a cache holding `7` under `vehicles:1:10` and `8` under `sections:3`. -/
theorem c5_witness :
    (wantsCache (some "max-age=0") = true) ∧
    (RedisState.read ⟨[⟨"vehicles:1:10", "7", 100⟩, ⟨"sections:3", "8", 100⟩]⟩
        0 (vehicleListKey 1 10) = some "7") ∧
    (natParse "7" = some 7) ∧
    vehicleGetAll natParse natStringify (some "max-age=0") none 1 10 0
        ⟨[⟨"vehicles:1:10", "7", 100⟩, ⟨"sections:3", "8", 100⟩]⟩
        true true 42 =
      ⟨.ok 7, [.redisGet (vehicleListKey 1 10)],
        ⟨[⟨"vehicles:1:10", "7", 100⟩, ⟨"sections:3", "8", 100⟩]⟩⟩ :=
  ⟨by decide, by decide, by decide,
    (c5_hit_serves_cache_only natParse natStringify (some "max-age=0") none
      1 10 3 0 ⟨[⟨"vehicles:1:10", "7", 100⟩, ⟨"sections:3", "8", 100⟩]⟩
      true 42 "7" "8" 7 8 (by decide) (by decide) (by decide) (by decide)
      (by decide) (by decide) (by decide)).1⟩

/-- C6 (confirmed): a request with the Cache-Control header absent runs
exactly like one with `Cache-Control: no-cache` — same outcome, same
trace, same cache afterwards — and a cache get happens only when a
header with some non-empty value other than `no-cache` is supplied;
shown for the vehicle list and the section list. -/
theorem c6_absent_header_is_bypass {V : Type} (parse : String → Option V)
    (stringify : V → String) (plate : Option String) (page limit : Int)
    (now : Nat) (redis : RedisState) (getUp setUp : Bool) (svc : V) :
    (vehicleGetAll parse stringify none plate page limit now redis
        getUp setUp svc =
      vehicleGetAll parse stringify (some "no-cache") plate page limit now
        redis getUp setUp svc) ∧
    (sectionGetAll parse stringify none now redis getUp setUp svc =
      sectionGetAll parse stringify (some "no-cache") now redis
        getUp setUp svc) ∧
    (∀ cacheOption k, Event.redisGet k ∈
        (vehicleGetAll parse stringify cacheOption plate page limit now redis
          getUp setUp svc).events →
      ∃ s, cacheOption = some s ∧ s ≠ "" ∧ s ≠ "no-cache") ∧
    (∀ cacheOption k, Event.redisGet k ∈
        (sectionGetAll parse stringify cacheOption now redis
          getUp setUp svc).events →
      ∃ s, cacheOption = some s ∧ s ≠ "" ∧ s ≠ "no-cache") := by
  have hget : ∀ (key : String) (cacheOption : Option String) (k : String),
      Event.redisGet k ∈
        (cachedRead parse stringify key cacheOption now redis
          getUp setUp svc).events →
      ∃ s, cacheOption = some s ∧ s ≠ "" ∧ s ≠ "no-cache" := by
    intro key cacheOption k hmem
    by_cases hw : wantsCache cacheOption = true
    · cases cacheOption with
      | none => exact absurd hw (by simp [wantsCache])
      | some s => exact ⟨s, rfl, (wantsCache_some_iff s).mp hw⟩
    · rw [cachedRead_of_not_wantsCache parse stringify _ _ _ _ _ _ _
        (Bool.not_eq_true _ ▸ hw)] at hmem
      exact absurd hmem
        (redisGet_not_mem_loadAndStore stringify key now redis setUp svc k)
  refine ⟨?_, ?_, fun c k h => hget _ c k h, fun c k h => hget _ c k h⟩
  · rw [vehicleGetAll, vehicleGetAll,
      cachedRead_of_not_wantsCache parse stringify _ _ _ _ _ _ _
        wantsCache_none,
      cachedRead_of_not_wantsCache parse stringify _ _ _ _ _ _ _
        wantsCache_no_cache]
  · rw [sectionGetAll, sectionGetAll,
      cachedRead_of_not_wantsCache parse stringify _ _ _ _ _ _ _
        wantsCache_none,
      cachedRead_of_not_wantsCache parse stringify _ _ _ _ _ _ _
        wantsCache_no_cache]

/-- C6 witness data: concrete instantiation of
`c6_absent_header_is_bypass`, using its cache-get part at a run that did
perform a get. -/
theorem c6_witness :
    (Event.redisGet "vehicles:1:10" ∈
      (vehicleGetAll natParse natStringify (some "max-age=0") none 1 10 0
        ⟨[⟨"vehicles:1:10", "7", 100⟩]⟩ true true 42).events) ∧
    (∃ s, (some "max-age=0" : Option String) = some s ∧ s ≠ "" ∧
      s ≠ "no-cache") :=
  ⟨by decide,
    (c6_absent_header_is_bypass natParse natStringify none 1 10 0
      ⟨[⟨"vehicles:1:10", "7", 100⟩]⟩ true true 42).2.2.1
      (some "max-age=0") "vehicles:1:10" (by decide)⟩

/-- C7 (confirmed): the four mutation handlers perform no cache read,
write or invalidation — each run's Redis state is exactly the input
state and its trace holds no Redis event — and therefore a cached GET
for a vehicle id within the TTL window after an update still returns the
pre-update payload, with no loader call. -/
theorem c7_mutations_leave_cache_stale {V : Type} (parse : String → Option V)
    (stringify : V → String) (s plateNew : String) (id : Int) (t₀ t₁ : Nat)
    (redis₀ : RedisState) (vOld vNew uRes : V)
    (hs₁ : s ≠ "") (hs₂ : s ≠ "no-cache")
    (hmiss : redis₀.read t₀ (vehicleIdKey id) = none)
    (ht : t₁ < t₀ + 60 * 10)
    (hrt : parse (stringify vOld) = some vOld)
    (hne : stringify vOld ≠ "") :
    (∀ redis : RedisState, ∀ plate svc,
      vehicleUpdate (V := V) id plate redis svc =
        ⟨.ok svc, [.serviceCall], redis⟩ ∧
      vehicleDelete (V := V) id redis svc = ⟨.ok svc, [.serviceCall], redis⟩ ∧
      sectionUpdate (V := V) id redis svc = ⟨.ok svc, [.serviceCall], redis⟩ ∧
      sectionDelete (V := V) id redis svc = ⟨.ok svc, [.serviceCall], redis⟩) ∧
    vehicleGetById parse stringify (some s) id t₁
        (vehicleUpdate id plateNew
          (vehicleGetById parse stringify (some s) id t₀ redis₀ true true
            vOld).redis uRes).redis
        true true vNew =
      ⟨.ok vOld, [.redisGet (vehicleIdKey id)],
        redis₀.setEx t₀ (vehicleIdKey id) (stringify vOld) (60 * 10)⟩ := by
  have hw : wantsCache (some s) = true := (wantsCache_some_iff s).mpr ⟨hs₁, hs₂⟩
  refine ⟨fun redis plate svc => ⟨rfl, rfl, rfl, rfl⟩, ?_⟩
  have h₁ : vehicleGetById parse stringify (some s) id t₀ redis₀ true true
      vOld =
      ⟨.ok vOld,
        [.redisGet (vehicleIdKey id), .serviceCall,
          .redisSet (vehicleIdKey id) (stringify vOld) (60 * 10)],
        redis₀.setEx t₀ (vehicleIdKey id) (stringify vOld) (60 * 10)⟩ := by
    rw [vehicleGetById, cachedRead_miss parse stringify _ _ _ _ _ _ hw hmiss,
      loadAndStore]
    rfl
  rw [h₁, vehicleUpdate, vehicleGetById,
    cachedRead_hit parse stringify _ _ _ _ _ _ (stringify vOld) vOld hw
      (setEx_read_back redis₀ t₀ t₁ _ _ _ ht) hne hrt]

/-- C7 witness data: concrete staleness scenario — after caching `41`
for vehicle 7 and then updating the vehicle, the cached GET still
returns `41`. -/
theorem c7_witness :
    (natParse (natStringify 41) = some 41) ∧
    vehicleGetById natParse natStringify (some "max-age=0") 7 5
        (vehicleUpdate 7 "NEW999"
          (vehicleGetById natParse natStringify (some "max-age=0") 7 0 ⟨[]⟩
            true true 41).redis 1).redis
        true true 99 =
      ⟨.ok 41, [.redisGet (vehicleIdKey 7)],
        RedisState.setEx ⟨[]⟩ 0 (vehicleIdKey 7) (natStringify 41)
          (60 * 10)⟩ :=
  ⟨by decide,
    (c7_mutations_leave_cache_stale natParse natStringify "max-age=0"
      "NEW999" 7 0 5 ⟨[]⟩ 41 99 1 (by decide) (by decide) (by decide)
      (by decide) (by decide) (by decide)).2⟩

/-- C8 counterexample: a cached value that fails deserialization is not
treated as a miss — `JSON.parse` throws, the error reaches the caller,
and the loader is never invoked: with the non-numeric payload `garbage`
cached under `sections:3`, the section-by-id read fails. -/
theorem c8_counterexample :
    (sectionGetById natParse natStringify (some "max-age=0") 3 0
        ⟨[⟨"sections:3", "garbage", 100⟩]⟩ true true 42).outcome =
      .error .parseFailed ∧
    Event.serviceCall ∉
      (sectionGetById natParse natStringify (some "max-age=0") 3 0
        ⟨[⟨"sections:3", "garbage", 100⟩]⟩ true true 42).events := ⟨rfl, by decide⟩

/-- C8 (amended): on a non-bypass read whose cached value fails
deserialization, the deserialization error propagates to the caller —
the loader is not invoked, nothing is stored, and the cache entry is
left in place; shown for the vehicle list and for section-by-id. -/
theorem c8_bad_payload_propagates {V : Type} (parse : String → Option V)
    (stringify : V → String) (cacheOption : Option String)
    (plate : Option String) (page limit id : Int) (now : Nat)
    (redis : RedisState) (setUp : Bool) (svc : V) (c₁ c₂ : String)
    (hw : wantsCache cacheOption = true)
    (hc₁ : redis.read now (vehicleListKey page limit) = some c₁)
    (hne₁ : c₁ ≠ "") (hp₁ : parse c₁ = none)
    (hc₂ : redis.read now (sectionIdKey id) = some c₂)
    (hne₂ : c₂ ≠ "") (hp₂ : parse c₂ = none) :
    vehicleGetAll parse stringify cacheOption plate page limit now redis
        true setUp svc =
      ⟨.error .parseFailed, [.redisGet (vehicleListKey page limit)], redis⟩ ∧
    sectionGetById parse stringify cacheOption id now redis true setUp svc =
      ⟨.error .parseFailed, [.redisGet (sectionIdKey id)], redis⟩ := by
  constructor
  · rw [vehicleGetAll,
      cachedRead_hit_bad_payload parse stringify _ _ _ _ _ _ c₁ hw hc₁
        hne₁ hp₁]
  · rw [sectionGetById,
      cachedRead_hit_bad_payload parse stringify _ _ _ _ _ _ c₂ hw hc₂
        hne₂ hp₂]

/-- C8 witness data: concrete instantiation of
`c8_bad_payload_propagates` with `garbage` cached under both keys. -/
theorem c8_witness :
    (natParse "garbage" = none) ∧
    vehicleGetAll natParse natStringify (some "max-age=0") none 1 10 0
        ⟨[⟨"vehicles:1:10", "garbage", 100⟩, ⟨"sections:3", "garbage", 100⟩]⟩
        true true 42 =
      ⟨.error .parseFailed, [.redisGet (vehicleListKey 1 10)],
        ⟨[⟨"vehicles:1:10", "garbage", 100⟩,
          ⟨"sections:3", "garbage", 100⟩]⟩⟩ :=
  ⟨by decide,
    (c8_bad_payload_propagates natParse natStringify (some "max-age=0") none
      1 10 3 0
      ⟨[⟨"vehicles:1:10", "garbage", 100⟩, ⟨"sections:3", "garbage", 100⟩]⟩
      true 42 "garbage" "garbage" (by decide) (by decide) (by decide)
      (by decide) (by decide) (by decide) (by decide)).1⟩

/-- C9 (confirmed): every cache write performed by any of the four read
endpoints — vehicle list, vehicle by id, section list, section by id —
stores the serialized result with the same fixed expiry of 600 seconds. -/
theorem c9_fixed_ttl_600 {V : Type} (parse : String → Option V)
    (stringify : V → String) (cacheOption : Option String)
    (plate : Option String) (page limit idV idS : Int) (now : Nat)
    (redis : RedisState) (getUp setUp : Bool) (svc : V) :
    (∀ k v t, Event.redisSet k v t ∈
        (vehicleGetAll parse stringify cacheOption plate page limit now redis
          getUp setUp svc).events → t = 600) ∧
    (∀ k v t, Event.redisSet k v t ∈
        (vehicleGetById parse stringify cacheOption idV now redis
          getUp setUp svc).events → t = 600) ∧
    (∀ k v t, Event.redisSet k v t ∈
        (sectionGetAll parse stringify cacheOption now redis
          getUp setUp svc).events → t = 600) ∧
    (∀ k v t, Event.redisSet k v t ∈
        (sectionGetById parse stringify cacheOption idS now redis
          getUp setUp svc).events → t = 600) := by
  refine ⟨fun k v t h => ?_, fun k v t h => ?_, fun k v t h => ?_,
    fun k v t h => ?_⟩ <;>
    simpa using cachedRead_ttl parse stringify _ cacheOption now redis
      getUp setUp svc k v t h

/-- C9 witness data: concrete cache write by the vehicle-list endpoint,
carrying expiry 600. -/
theorem c9_witness :
    (Event.redisSet "vehicles:1:10" (natStringify 42) 600 ∈
      (vehicleGetAll natParse natStringify none none 1 10 0 ⟨[]⟩
        true true 42).events) ∧
    (600 : Nat) = 600 :=
  ⟨by decide,
    (c9_fixed_ttl_600 natParse natStringify none none 1 10 2 3 0 ⟨[]⟩
      true true 42).1 "vehicles:1:10" (natStringify 42) 600 (by decide)⟩

/-- C10 counterexample: the claim says SECURITY may create sections, but
`SectionController.create` is decorated `@Roles("ADMIN")` only, so a
SECURITY caller is denied. -/
theorem c10_counterexample : sectionAllows .SECURITY .create = false := by
  decide

/-- C10 (amended): the role policy allows SECURITY to create vehicles
but denies SECURITY the create action on sections; SECURITY has every
read action on both resource types, and is denied update and delete on
sections. -/
theorem c10_security_role_policy :
    vehicleAllows .SECURITY .create = true ∧
    sectionAllows .SECURITY .create = false ∧
    vehicleAllows .SECURITY .getAll = true ∧
    vehicleAllows .SECURITY .getById = true ∧
    sectionAllows .SECURITY .getAll = true ∧
    sectionAllows .SECURITY .getById = true ∧
    sectionAllows .SECURITY .getReservedSlots = true ∧
    sectionAllows .SECURITY .report = true ∧
    sectionAllows .SECURITY .update = false ∧
    sectionAllows .SECURITY .delete = false := by
  decide

end ParkingLot
